import Mathlib

/-!
Verification of the session / pipeline orchestration layer of an RVC
voice-conversion web UI (`modules/models.py`), shallowly embedded in Lean.

The embedding models the checkpoint adapter (`update_state_dict`), the
conversion-session constructor (`VC_MODEL.__init__`), the conversion
operation (`VC_MODEL.single`) up to the external pipeline call, the
artifact resolver (`get_index_path`, `get_big_npy_path`), the embedder
registry (`load_embedder` and the check in `single`), and the
module-level session loader (`load_model`).

Modeling choices:
  - configuration-array entries are carried as `Int` (the adapter only
    moves them around, so the value universe is irrelevant);
  - a loaded embedder model is represented by the physical file name it
    was loaded from (`embedder_model : Option String`);
  - Python exceptions are `Except String`; an operation that mutates
    module globals is a function from the global state that returns the
    (possibly unchanged) global state;
  - the filesystem is an oracle `fs : String → Bool` (`os.path.exists`)
    plus an explicit directory listing for the output directory;
  - the external black boxes (torch, fairseq, the `VC` pipeline, audio
    decode) are not modeled; instead `single` records the arguments it
    would hand to the pipeline and the output file name it would write.
-/

/-- A deserialized checkpoint (`state_dict`): optional pre-normalized
parameter map, array-form configuration, optional pitch flag `f0`,
optional embedder-name metadata, and the leading dimension of the
`emb_g.weight` speaker-embedding tensor. -/
structure StateDict where
  params? : Option (List (String × Int))
  config : List Int
  f0? : Option Int
  embedder_name? : Option String
  emb_g_dim0 : Nat
  deriving DecidableEq

/-- The fixed ordered list of 19 canonical field names walked by
`update_state_dict` (`keys` in the source). -/
def canonical_keys : List String :=
  [ "spec_channels",
    "segment_size",
    "inter_channels",
    "hidden_channels",
    "filter_channels",
    "n_heads",
    "n_layers",
    "kernel_size",
    "p_dropout",
    "resblock",
    "resblock_kernel_sizes",
    "resblock_dilation_sizes",
    "upsample_rates",
    "upsample_initial_channel",
    "upsample_kernel_sizes",
    "spk_embed_dim",
    "gin_channels",
    "emb_channels",
    "sr" ]

/-- The loop body of `update_state_dict`: walk the canonical keys with
enumerate counter `i` and skip counter `n`, reading `config[i - n]`,
except that when `len(config) != 19` the key `emb_channels` is assigned
the fixed default 256 without consuming an array slot.  An out-of-range
read raises (Python `IndexError`). -/
def buildParams (config : List Int) : List String → Nat → Nat →
    Except String (List (String × Int))
  | [], _, _ => Except.ok []
  | key :: rest, i, n =>
    if config.length ≠ 19 ∧ key = "emb_channels" then
      match buildParams config rest (i + 1) (n + 1) with
      | Except.ok ps => Except.ok ((key, 256) :: ps)
      | Except.error e => Except.error e
    else
      match config.get? (i - n) with
      | none => Except.error "list index out of range"
      | some v =>
        match buildParams config rest (i + 1) n with
        | Except.ok ps => Except.ok ((key, v) :: ps)
        | Except.error e => Except.error e

/-- `update_state_dict`: if a non-null `params` map is already present
this is a no-op; otherwise the canonical keys are populated from the
configuration array via `buildParams`. -/
def update_state_dict (sd : StateDict) : Except String StateDict :=
  match sd.params? with
  | some _ => Except.ok sd
  | none =>
    match buildParams sd.config canonical_keys 0 0 with
    | Except.ok ps => Except.ok { sd with params? := some ps }
    | Except.error e => Except.error e

/-- Variant of `buildParams` with the length test dropped from the skip
condition; used only as a proof device: when `config.length ≠ 19` the
two functions agree (`buildParams_eq_skip`), and this one evaluates
definitionally on a cons-chain with a symbolic tail. -/
def buildParamsSkip (config : List Int) : List String → Nat → Nat →
    Except String (List (String × Int))
  | [], _, _ => Except.ok []
  | key :: rest, i, n =>
    if key = "emb_channels" then
      match buildParamsSkip config rest (i + 1) (n + 1) with
      | Except.ok ps => Except.ok ((key, 256) :: ps)
      | Except.error e => Except.error e
    else
      match config.get? (i - n) with
      | none => Except.error "list index out of range"
      | some v =>
        match buildParamsSkip config rest (i + 1) n with
        | Except.ok ps => Except.ok ((key, v) :: ps)
        | Except.error e => Except.error e

/-- The two synthesizer network variants selected by the pitch flag
(`SynthesizerTrnMs256NSFSid` when `f0 == 1`, `...Nono` otherwise). -/
inductive NetVariant where
  | synthesizerTrnMs256NSFSid
  | synthesizerTrnMs256NSFSidNono
  deriving DecidableEq

/-- Python dict assignment `d[k] = v` on an insertion-ordered
association list: replace in place if present, append otherwise. -/
def dictSet : List (String × Int) → String → Int → List (String × Int)
  | [], k, v => [(k, v)]
  | (k', v') :: rest, k, v =>
    if k' = k then (k, v) :: rest else (k', v') :: dictSet rest k v

/-- The conversion session built by `VC_MODEL.__init__`: model name,
the stored pitch flag (re-read by `single`), target sample rate,
required embedder name, selected network variant, the final parameter
map, and the reported speaker count `n_spk`. -/
structure Session where
  model_name : String
  weight_f0? : Option Int
  tgt_sr : Int
  embedder_name : String
  net_g : NetVariant
  params : List (String × Int)
  n_spk : Int
  deriving DecidableEq

/-- `VC_MODEL.__init__`: normalize the state dict, read `sr`, default
the pitch flag to 1 and the embedder name to "hubert_base", overwrite
`spk_embed_dim` with the leading dimension of `emb_g.weight`, backfill
`emb_channels` to 256 if absent, select the network variant by the
pitch flag, and report `n_spk` from the (just overwritten)
`spk_embed_dim` entry. -/
def VC_MODEL_init (model_name : String) (sd0 : StateDict) :
    Except String Session :=
  match update_state_dict sd0 with
  | Except.error e => Except.error e
  | Except.ok sd =>
    match sd.params? with
    | none => Except.error "KeyError: params"
    | some ps0 =>
      match ps0.lookup "sr" with
      | none => Except.error "KeyError: sr"
      | some tgt_sr =>
        let f0 := sd.f0?.getD 1
        let embedder_name := sd.embedder_name?.getD "hubert_base"
        let ps1 := dictSet ps0 "spk_embed_dim" (Int.ofNat sd.emb_g_dim0)
        let ps2 := if (ps1.lookup "emb_channels").isSome then ps1
                   else ps1 ++ [("emb_channels", 256)]
        let net_g := if f0 = 1 then NetVariant.synthesizerTrnMs256NSFSid
                     else NetVariant.synthesizerTrnMs256NSFSidNono
        match ps2.lookup "spk_embed_dim" with
        | none => Except.error "KeyError: spk_embed_dim"
        | some n_spk =>
          Except.ok { model_name := model_name, weight_f0? := sd.f0?,
                      tgt_sr := tgt_sr, embedder_name := embedder_name,
                      net_g := net_g, params := ps2, n_spk := n_spk }

/-- The module-global mutable state: the active session (`vc_model`),
the loaded embedder (identified by the physical file it was loaded
from), and its logical name (`loaded_embedder_model`). -/
structure Globals where
  vc_model : Option Session
  embedder_model : Option String
  loaded_embedder_model : String
  deriving DecidableEq

/-- `load_embedder(emb_file, emb_name)`: load the physical weight file
into the global embedder slot and record its logical name. -/
def load_embedder (emb_file emb_name : String) (st : Globals) : Globals :=
  { st with embedder_model := some emb_file,
            loaded_embedder_model := emb_name }

/-- The `load_emb_dic` table of `single`: logical name to physical file
and alias-family name. -/
def load_emb_dic : List (String × String × String) :=
  [ ("hubert_base", "hubert_base.pt", "hubert_base"),
    ("hubert_base768", "hubert_base.pt", "hubert_base"),
    ("contentvec", "checkpoint_best_legacy_500.pt", "contentvec"),
    ("contentvec768", "checkpoint_best_legacy_500.pt", "contentvec") ]

/-- Two-argument `posixpath.join`: if the second component begins with
the separator it replaces the first; if the first is empty or already
ends with the separator they concatenate; otherwise a separator is
inserted.  The begins-with / ends-with tests are spelled over the
character list so that they evaluate. -/
def ospathJoin (a b : String) : String :=
  if b.toList.head? = some '/' then b
  else if a = "" ∨ a.toList.getLast? = some '/' then a ++ b
  else a ++ "/" ++ b

/-- Root part of `os.path.splitext` on a path basename, as characters:
leading dots do not start an extension; otherwise split at the last
dot. -/
def splitRootChars (base : List Char) : List Char :=
  let leading := base.takeWhile (fun c => c = '.')
  let rest := base.drop leading.length
  if rest.contains '.' then
    leading ++ (((rest.reverse.dropWhile (fun c => c ≠ '.')).drop 1).reverse)
  else base

/-- `os.path.splitext(p)[0]` for POSIX paths. -/
def splitextFst (p : String) : String :=
  let rev := p.toList.reverse
  let revBase := rev.takeWhile (fun c => c ≠ '/')
  let revDir := rev.drop revBase.length
  String.mk (revDir.reverse ++ splitRootChars revBase.reverse)

/-- `os.path.basename` for POSIX paths. -/
def osBasename (p : String) : String :=
  String.mk ((p.toList.reverse.takeWhile (fun c => c ≠ '/')).reverse)

/-- The per-speaker similarity-index path
`<models_dir>/checkpoints/<basename>_index/<basename>.<sid>.index`. -/
def speaker_index_path (models_dir model_name : String) (speaker_id : Int) :
    String :=
  ospathJoin (ospathJoin (ospathJoin models_dir "checkpoints")
      (splitextFst model_name ++ "_index"))
    (splitextFst model_name ++ "." ++ toString speaker_id ++ ".index")

/-- The model-level fallback index path
`<models_dir>/checkpoints/<basename>.index`. -/
def fallback_index_path (models_dir model_name : String) : String :=
  ospathJoin (ospathJoin models_dir "checkpoints")
    (splitextFst model_name ++ ".index")

/-- `VC_MODEL.get_index_path`: prefer the per-speaker path when it
exists on the filesystem, otherwise return the fallback path without
checking its existence. -/
def get_index_path (fs : String → Bool) (models_dir model_name : String)
    (speaker_id : Int) : String :=
  if fs (speaker_index_path models_dir model_name speaker_id) then
    speaker_index_path models_dir model_name speaker_id
  else fallback_index_path models_dir model_name

/-- The per-speaker dense-vector path
`<models_dir>/checkpoints/<basename>_index/<basename>.<sid>.big.npy`. -/
def speaker_big_npy_path (models_dir model_name : String) (speaker_id : Int) :
    String :=
  ospathJoin (ospathJoin (ospathJoin models_dir "checkpoints")
      (splitextFst model_name ++ "_index"))
    (splitextFst model_name ++ "." ++ toString speaker_id ++ ".big.npy")

/-- The model-level fallback dense-vector path
`<models_dir>/checkpoints/<basename>.big.npy`. -/
def fallback_big_npy_path (models_dir model_name : String) : String :=
  ospathJoin (ospathJoin models_dir "checkpoints")
    (splitextFst model_name ++ ".big.npy")

/-- `VC_MODEL.get_big_npy_path`: same rule as `get_index_path` for the
`.big.npy` artifact. -/
def get_big_npy_path (fs : String → Bool) (models_dir model_name : String)
    (speaker_id : Int) : String :=
  if fs (speaker_big_npy_path models_dir model_name speaker_id) then
    speaker_big_npy_path models_dir model_name speaker_id
  else fallback_big_npy_path models_dir model_name

/-- The numeric value of `re.match(r"\d+", s)` at the start of a file
name: the maximal run of leading decimal digits, if nonempty. -/
def leadingNumber (s : String) : Option Nat :=
  let ds := s.toList.takeWhile Char.isDigit
  if ds.isEmpty then none
  else some (ds.foldl (fun acc c => acc * 10 + (c.toNat - 48)) 0)

/-- The directory scan of `single`: start from 0 and take the maximum
leading numeric prefix over the existing output files. -/
def maxLeadingNum (files : List String) : Nat :=
  files.foldl
    (fun index f =>
      match leadingNumber f with
      | some prefix_num => if index < prefix_num then prefix_num else index
      | none => index)
    0

/-- What `VC_MODEL.single` hands to the external pipeline and output
writer on the success path: whether `load_embedder` ran, the pipeline
call arguments, and the output file name. -/
structure SingleOut where
  embedderLoaded : Bool
  pipe_sid : Int
  pipe_f0_up_key : Int
  pipe_f0_method : String
  pipe_faiss_index_file : String
  pipe_big_npy_file : String
  pipe_index_rate : Rat
  pipe_f0 : Int
  pipe_f0_file : String
  pipe_embedder_name : String
  outputFile : String
  deriving DecidableEq

/-- `VC_MODEL.single` up to the external pipeline call: validate the
source-audio path, check the embedder name against `load_emb_dic`,
reload the embedder when none is loaded or the loaded family differs,
re-read the pitch flag, auto-resolve index artifacts when requested,
and compute the numbered output file name.  `fs` is the
`os.path.exists` oracle and `out_dir_files` the output-directory
listing. -/
def single (sess : Session) (st : Globals) (fs : String → Bool)
    (models_dir : String) (out_dir_files : List String)
    (sid : Int) (input_audio : String) (f0_up_key : Int) (f0_file : String)
    (f0_method : String) (auto_load_index : Bool)
    (faiss_index_file : String) (big_npy_file : String) (index_rate : Rat) :
    Globals × Except String SingleOut :=
  if input_audio = "" then
    (st, Except.error "You need to set Source Audio")
  else
    match load_emb_dic.lookup sess.embedder_name with
    | none => (st, Except.error ("Not supported embedder: " ++ sess.embedder_name))
    | some (emb_file, emb_name) =>
      let stepEmb :=
        if st.embedder_model = none ∨ st.loaded_embedder_model ≠ emb_name then
          (load_embedder emb_file emb_name st, true)
        else (st, false)
      let f0 := sess.weight_f0?.getD 1
      let faiss_index_file1 :=
        if faiss_index_file = "" ∧ auto_load_index then
          get_index_path fs models_dir sess.model_name sid
        else faiss_index_file
      let big_npy_file1 :=
        if big_npy_file = "" ∧ auto_load_index then
          get_big_npy_path fs models_dir sess.model_name sid
        else big_npy_file
      let index := maxLeadingNum out_dir_files
      let outName := toString (index + 1) ++ "-" ++ splitextFst sess.model_name
          ++ "-" ++ splitextFst (osBasename input_audio) ++ ".wav"
      (stepEmb.1, Except.ok
        { embedderLoaded := stepEmb.2, pipe_sid := sid,
          pipe_f0_up_key := f0_up_key, pipe_f0_method := f0_method,
          pipe_faiss_index_file := faiss_index_file1,
          pipe_big_npy_file := big_npy_file1, pipe_index_rate := index_rate,
          pipe_f0 := f0, pipe_f0_file := f0_file,
          pipe_embedder_name := sess.embedder_name, outputFile := outName })

/-- `get_vc_model`: deserialize (external) and construct the session. -/
def get_vc_model (model_name : String) (weight : StateDict) :
    Except String Session :=
  VC_MODEL_init model_name weight

/-- `load_model`: replace the global `vc_model` with a freshly built
session; on a raised exception the assignment never happens and the
global state is returned unchanged. -/
def load_model (model_name : String) (weight : StateDict) (st : Globals) :
    Globals × Except String Unit :=
  match get_vc_model model_name weight with
  | Except.ok s => ({ st with vc_model := some s }, Except.ok ())
  | Except.error e => (st, Except.error e)

/-- A concrete legacy (length-18) configuration array; slot 15
(`spk_embed_dim`) deliberately disagrees with the weight tensor, slot
17 is the sample rate. -/
def cfg18A : List Int :=
  [1025, 32, 192, 192, 768, 2, 6, 3, 0, 3, 3, 3, 10, 512, 16, 999, 256, 40000]

/-- A concrete checkpoint with no pre-normalized params, no pitch flag,
no embedder metadata, and an `emb_g.weight` tensor of leading
dimension 4. -/
def sdA : StateDict := { params? := none, config := cfg18A, f0? := none,
                         embedder_name? := none, emb_g_dim0 := 4 }

/-- The session `VC_MODEL.__init__` builds from `sdA`. -/
def sessA : Session :=
  { model_name := "modelA.pth", weight_f0? := none, tgt_sr := 40000,
    embedder_name := "hubert_base",
    net_g := NetVariant.synthesizerTrnMs256NSFSid,
    params :=
      [ ("spec_channels", 1025), ("segment_size", 32), ("inter_channels", 192),
        ("hidden_channels", 192), ("filter_channels", 768), ("n_heads", 2),
        ("n_layers", 6), ("kernel_size", 3), ("p_dropout", 0),
        ("resblock", 3), ("resblock_kernel_sizes", 3),
        ("resblock_dilation_sizes", 3), ("upsample_rates", 10),
        ("upsample_initial_channel", 512), ("upsample_kernel_sizes", 16),
        ("spk_embed_dim", 4), ("gin_channels", 256), ("emb_channels", 256),
        ("sr", 40000) ],
    n_spk := 4 }

/-- The initial module-global state: no session, no embedder, empty
loaded-embedder name. -/
def gEmpty : Globals :=
  { vc_model := none, embedder_model := none, loaded_embedder_model := "" }

/-- A global state holding a valid session and a loaded hubert_base
embedder. -/
def gFull : Globals :=
  { vc_model := some sessA, embedder_model := some "hubert_base.pt",
    loaded_embedder_model := "hubert_base" }

/-- A session whose checkpoint requested the `hubert_base768` alias. -/
def sessB : Session :=
  { model_name := "modelB.pth", weight_f0? := none, tgt_sr := 40000,
    embedder_name := "hubert_base768",
    net_g := NetVariant.synthesizerTrnMs256NSFSid, params := [], n_spk := 1 }

/-- A filesystem oracle on which no path exists. -/
def fsFalse : String → Bool := fun _ => false

/-- An output-directory listing with numeric prefixes 3 and 7. -/
def filesW : List String := ["3-foo-bar.wav", "7-baz-qux.wav"]

/-- C1, as frozen: for a length-18 configuration array normalization
yields `emb_channels = 256` with the other 18 fields taken in order;
for a length-19 array `emb_channels` would equal `array[18]`.  The code
assigns `emb_channels` from index 17 and `sr` from index 18, so the
second half fails; this is the concrete refutation at the length-19
array `[0, 1, ..., 18]`, where `emb_channels` comes out as `17`, not
`array[18] = 18` (which lands in `sr`). -/
theorem c1_counterexample :
    update_state_dict
        ⟨none, [0, 1, 2, 3, 4, 5, 6, 7, 8, 9, 10, 11, 12, 13, 14, 15, 16, 17, 18],
          none, none, 4⟩ =
      Except.ok
        ⟨some
          [ ("spec_channels", 0), ("segment_size", 1), ("inter_channels", 2),
            ("hidden_channels", 3), ("filter_channels", 4), ("n_heads", 5),
            ("n_layers", 6), ("kernel_size", 7), ("p_dropout", 8),
            ("resblock", 9), ("resblock_kernel_sizes", 10),
            ("resblock_dilation_sizes", 11), ("upsample_rates", 12),
            ("upsample_initial_channel", 13), ("upsample_kernel_sizes", 14),
            ("spk_embed_dim", 15), ("gin_channels", 16), ("emb_channels", 17),
            ("sr", 18) ],
          [0, 1, 2, 3, 4, 5, 6, 7, 8, 9, 10, 11, 12, 13, 14, 15, 16, 17, 18],
          none, none, 4⟩ ∧
    ([(0 : Int), 1, 2, 3, 4, 5, 6, 7, 8, 9, 10, 11, 12, 13, 14, 15, 16, 17, 18]).get? 18 =
      some 18 ∧ (17 : Int) ≠ 18 := by
  refine ⟨?_, rfl, by decide⟩
  rfl

/-- C1, amended: for every length-18 configuration array, normalization
yields `emb_channels = 256` and the other 18 canonical fields in array
order; for every length-19 array, `emb_channels` is read from the array
and equals `array[17]` (with `sr = array[18]`). -/
theorem c1_amended_legacy_backfill :
    (∀ (a0 a1 a2 a3 a4 a5 a6 a7 a8 a9 a10 a11 a12 a13 a14 a15 a16 a17 : Int)
       (f0? : Option Int) (en? : Option String) (d : Nat),
      update_state_dict
          ⟨none, [a0, a1, a2, a3, a4, a5, a6, a7, a8, a9, a10, a11, a12, a13,
                  a14, a15, a16, a17], f0?, en?, d⟩ =
        Except.ok
          ⟨some
            [ ("spec_channels", a0), ("segment_size", a1), ("inter_channels", a2),
              ("hidden_channels", a3), ("filter_channels", a4), ("n_heads", a5),
              ("n_layers", a6), ("kernel_size", a7), ("p_dropout", a8),
              ("resblock", a9), ("resblock_kernel_sizes", a10),
              ("resblock_dilation_sizes", a11), ("upsample_rates", a12),
              ("upsample_initial_channel", a13), ("upsample_kernel_sizes", a14),
              ("spk_embed_dim", a15), ("gin_channels", a16),
              ("emb_channels", 256), ("sr", a17) ],
            [a0, a1, a2, a3, a4, a5, a6, a7, a8, a9, a10, a11, a12, a13,
             a14, a15, a16, a17], f0?, en?, d⟩) ∧
    (∀ (b0 b1 b2 b3 b4 b5 b6 b7 b8 b9 b10 b11 b12 b13 b14 b15 b16 b17 b18 : Int)
       (f0? : Option Int) (en? : Option String) (d : Nat),
      update_state_dict
          ⟨none, [b0, b1, b2, b3, b4, b5, b6, b7, b8, b9, b10, b11, b12, b13,
                  b14, b15, b16, b17, b18], f0?, en?, d⟩ =
        Except.ok
          ⟨some
            [ ("spec_channels", b0), ("segment_size", b1), ("inter_channels", b2),
              ("hidden_channels", b3), ("filter_channels", b4), ("n_heads", b5),
              ("n_layers", b6), ("kernel_size", b7), ("p_dropout", b8),
              ("resblock", b9), ("resblock_kernel_sizes", b10),
              ("resblock_dilation_sizes", b11), ("upsample_rates", b12),
              ("upsample_initial_channel", b13), ("upsample_kernel_sizes", b14),
              ("spk_embed_dim", b15), ("gin_channels", b16),
              ("emb_channels", b17), ("sr", b18) ],
            [b0, b1, b2, b3, b4, b5, b6, b7, b8, b9, b10, b11, b12, b13,
             b14, b15, b16, b17, b18], f0?, en?, d⟩) := by
  constructor
  · intro a0 a1 a2 a3 a4 a5 a6 a7 a8 a9 a10 a11 a12 a13 a14 a15 a16 a17 f0? en? d
    rfl
  · intro b0 b1 b2 b3 b4 b5 b6 b7 b8 b9 b10 b11 b12 b13 b14 b15 b16 b17 b18 f0? en? d
    rfl

/-- When the configuration length is not 19, the length test in the
skip condition is vacuous and `buildParams` agrees with
`buildParamsSkip`. -/
theorem buildParams_eq_skip {config : List Int} (hc : config.length ≠ 19) :
    ∀ (keys : List String) (i n : Nat),
      buildParams config keys i n = buildParamsSkip config keys i n := by
  intro keys
  induction keys with
  | nil => intro i n; rfl
  | cons key rest ih =>
    intro i n
    by_cases hk : key = "emb_channels"
    · rw [buildParams, buildParamsSkip, if_pos ⟨hc, hk⟩, if_pos hk, ih]
    · rw [buildParams, buildParamsSkip, if_neg (fun h => hk h.2), if_neg hk]
      rcases hE : config.get? (i - n) with _ | v
      · rfl
      · rw [ih]

/-- A configuration array with fewer than 18 entries runs out of
elements during the walk. -/
theorem buildParams_short {config : List Int} (hl : config.length < 18) :
    buildParams config canonical_keys 0 0 =
      Except.error "list index out of range" := by
  rcases config with _ | ⟨a0, config⟩
  · rfl
  rcases config with _ | ⟨a1, config⟩
  · rfl
  rcases config with _ | ⟨a2, config⟩
  · rfl
  rcases config with _ | ⟨a3, config⟩
  · rfl
  rcases config with _ | ⟨a4, config⟩
  · rfl
  rcases config with _ | ⟨a5, config⟩
  · rfl
  rcases config with _ | ⟨a6, config⟩
  · rfl
  rcases config with _ | ⟨a7, config⟩
  · rfl
  rcases config with _ | ⟨a8, config⟩
  · rfl
  rcases config with _ | ⟨a9, config⟩
  · rfl
  rcases config with _ | ⟨a10, config⟩
  · rfl
  rcases config with _ | ⟨a11, config⟩
  · rfl
  rcases config with _ | ⟨a12, config⟩
  · rfl
  rcases config with _ | ⟨a13, config⟩
  · rfl
  rcases config with _ | ⟨a14, config⟩
  · rfl
  rcases config with _ | ⟨a15, config⟩
  · rfl
  rcases config with _ | ⟨a16, config⟩
  · rfl
  rcases config with _ | ⟨a17, config⟩
  · rfl
  · exfalso
    simp only [List.length_cons] at hl
    omega

/-- `update_state_dict` on a checkpoint without pre-normalized params
and with a configuration of fewer than 18 entries raises. -/
theorem update_state_dict_short {sd : StateDict} (hp : sd.params? = none)
    (hl : sd.config.length < 18) :
    update_state_dict sd = Except.error "list index out of range" := by
  rw [update_state_dict, hp, buildParams_short hl]

/-- On any configuration with at least 18 entries whose length is not
19, normalization backfills `emb_channels` with 256 and reads the other
18 fields from slots 0..17, regardless of how many further entries the
array has. -/
theorem update_state_dict_skip
    (a0 a1 a2 a3 a4 a5 a6 a7 a8 a9 a10 a11 a12 a13 a14 a15 a16 a17 : Int)
    (rest : List Int) (hr : rest.length ≠ 1)
    (f0? : Option Int) (en? : Option String) (d : Nat) :
    update_state_dict
        ⟨none, a0 :: a1 :: a2 :: a3 :: a4 :: a5 :: a6 :: a7 :: a8 :: a9 ::
               a10 :: a11 :: a12 :: a13 :: a14 :: a15 :: a16 :: a17 :: rest,
          f0?, en?, d⟩ =
      Except.ok
        ⟨some
          [ ("spec_channels", a0), ("segment_size", a1), ("inter_channels", a2),
            ("hidden_channels", a3), ("filter_channels", a4), ("n_heads", a5),
            ("n_layers", a6), ("kernel_size", a7), ("p_dropout", a8),
            ("resblock", a9), ("resblock_kernel_sizes", a10),
            ("resblock_dilation_sizes", a11), ("upsample_rates", a12),
            ("upsample_initial_channel", a13), ("upsample_kernel_sizes", a14),
            ("spk_embed_dim", a15), ("gin_channels", a16),
            ("emb_channels", 256), ("sr", a17) ],
          a0 :: a1 :: a2 :: a3 :: a4 :: a5 :: a6 :: a7 :: a8 :: a9 ::
          a10 :: a11 :: a12 :: a13 :: a14 :: a15 :: a16 :: a17 :: rest,
          f0?, en?, d⟩ := by
  have hc : (a0 :: a1 :: a2 :: a3 :: a4 :: a5 :: a6 :: a7 :: a8 :: a9 ::
      a10 :: a11 :: a12 :: a13 :: a14 :: a15 :: a16 :: a17 :: rest).length ≠ 19 := by
    simp only [List.length_cons]
    omega
  simp only [update_state_dict]
  rw [buildParams_eq_skip hc canonical_keys 0 0]
  rfl

/-- Any list with at least 18 entries splits as 18 explicit heads plus
a tail. -/
theorem exists_heads18 {l : List Int} (h : 18 ≤ l.length) :
    ∃ a0 a1 a2 a3 a4 a5 a6 a7 a8 a9 a10 a11 a12 a13 a14 a15 a16 a17 rest,
      l = a0 :: a1 :: a2 :: a3 :: a4 :: a5 :: a6 :: a7 :: a8 :: a9 ::
          a10 :: a11 :: a12 :: a13 :: a14 :: a15 :: a16 :: a17 :: rest := by
  rcases l with _ | ⟨a0, l⟩
  · simp at h
  rcases l with _ | ⟨a1, l⟩
  · simp at h
  rcases l with _ | ⟨a2, l⟩
  · simp at h
  rcases l with _ | ⟨a3, l⟩
  · simp at h
  rcases l with _ | ⟨a4, l⟩
  · simp at h
  rcases l with _ | ⟨a5, l⟩
  · simp at h
  rcases l with _ | ⟨a6, l⟩
  · simp at h
  rcases l with _ | ⟨a7, l⟩
  · simp at h
  rcases l with _ | ⟨a8, l⟩
  · simp at h
  rcases l with _ | ⟨a9, l⟩
  · simp at h
  rcases l with _ | ⟨a10, l⟩
  · simp at h
  rcases l with _ | ⟨a11, l⟩
  · simp at h
  rcases l with _ | ⟨a12, l⟩
  · simp at h
  rcases l with _ | ⟨a13, l⟩
  · simp at h
  rcases l with _ | ⟨a14, l⟩
  · simp at h
  rcases l with _ | ⟨a15, l⟩
  · simp at h
  rcases l with _ | ⟨a16, l⟩
  · simp at h
  rcases l with _ | ⟨a17, l⟩
  · simp at h
  exact ⟨a0, a1, a2, a3, a4, a5, a6, a7, a8, a9, a10, a11, a12, a13, a14,
         a15, a16, a17, l, rfl⟩

/-- Any list of length exactly 19 is an explicit 19-element list. -/
theorem exists_elems19 {l : List Int} (h : l.length = 19) :
    ∃ b0 b1 b2 b3 b4 b5 b6 b7 b8 b9 b10 b11 b12 b13 b14 b15 b16 b17 b18,
      l = [b0, b1, b2, b3, b4, b5, b6, b7, b8, b9, b10, b11, b12, b13, b14,
           b15, b16, b17, b18] := by
  have h18 : 18 ≤ l.length := by omega
  obtain ⟨a0, a1, a2, a3, a4, a5, a6, a7, a8, a9, a10, a11, a12, a13, a14,
          a15, a16, a17, rest, rfl⟩ := exists_heads18 h18
  rcases rest with _ | ⟨a18, rest⟩
  · simp at h
  rcases rest with _ | ⟨a19, rest⟩
  · exact ⟨a0, a1, a2, a3, a4, a5, a6, a7, a8, a9, a10, a11, a12, a13, a14,
           a15, a16, a17, a18, rfl⟩
  · exfalso
    simp only [List.length_cons] at h
    omega

/-- Evaluating the session constructor on the concrete checkpoint
`sdA` yields `sessA`. -/
theorem VC_MODEL_init_sdA : VC_MODEL_init "modelA.pth" sdA = Except.ok sessA := by
  rfl

/-- C2, as frozen, fails on a 20-entry configuration array: the code
skips `emb_channels` whenever the length differs from 19, not only when
it is below 19.  On the array `[0, ..., 19]` (length 20, no entry equal
to 256) normalization still backfills `emb_channels = 256` and assigns
`sr` from slot 17, consuming no slot for `emb_channels`. -/
theorem c2_counterexample :
    update_state_dict
        ⟨none, [0, 1, 2, 3, 4, 5, 6, 7, 8, 9, 10, 11, 12, 13, 14, 15, 16, 17,
                18, 19], none, none, 4⟩ =
      Except.ok
        ⟨some
          [ ("spec_channels", 0), ("segment_size", 1), ("inter_channels", 2),
            ("hidden_channels", 3), ("filter_channels", 4), ("n_heads", 5),
            ("n_layers", 6), ("kernel_size", 7), ("p_dropout", 8),
            ("resblock", 9), ("resblock_kernel_sizes", 10),
            ("resblock_dilation_sizes", 11), ("upsample_rates", 12),
            ("upsample_initial_channel", 13), ("upsample_kernel_sizes", 14),
            ("spk_embed_dim", 15), ("gin_channels", 16), ("emb_channels", 256),
            ("sr", 17) ],
          [0, 1, 2, 3, 4, 5, 6, 7, 8, 9, 10, 11, 12, 13, 14, 15, 16, 17,
           18, 19], none, none, 4⟩ ∧
    19 ≤ ([0, 1, 2, 3, 4, 5, 6, 7, 8, 9, 10, 11, 12, 13, 14, 15, 16, 17,
           18, 19] : List Int).length ∧
    ∀ x ∈ ([0, 1, 2, 3, 4, 5, 6, 7, 8, 9, 10, 11, 12, 13, 14, 15, 16, 17,
            18, 19] : List Int), x ≠ 256 := by
  refine ⟨?_, by decide, by decide⟩
  rfl

/-- C2, amended: normalization skips the `emb_channels` field
(assigning the fixed default 256 without consuming an array slot)
exactly when the configuration array length differs from 19; when the
length is exactly 19, `emb_channels` is read from the array (slot 17,
with `sr` from slot 18). -/
theorem c2_amended_skip_rule (config : List Int) (f0? : Option Int)
    (en? : Option String) (d : Nat) :
    (config.length = 19 →
      ∃ sd', update_state_dict ⟨none, config, f0?, en?, d⟩ = Except.ok sd' ∧
        ∃ ps, sd'.params? = some ps ∧
          ps.lookup "emb_channels" = config.get? 17 ∧
          ps.lookup "sr" = config.get? 18) ∧
    (config.length ≠ 19 →
      ∀ sd', update_state_dict ⟨none, config, f0?, en?, d⟩ = Except.ok sd' →
        ∃ ps, sd'.params? = some ps ∧
          ps.lookup "emb_channels" = some 256 ∧
          ps.lookup "sr" = config.get? 17) := by
  constructor
  · intro h19
    obtain ⟨b0, b1, b2, b3, b4, b5, b6, b7, b8, b9, b10, b11, b12, b13, b14,
            b15, b16, b17, b18, rfl⟩ := exists_elems19 h19
    exact ⟨_, rfl, _, rfl, rfl, rfl⟩
  · intro h19 sd' hok
    by_cases hlt : config.length < 18
    · rw [@update_state_dict_short ⟨none, config, f0?, en?, d⟩ rfl hlt] at hok
      simp at hok
    · have h18 : 18 ≤ config.length := by omega
      obtain ⟨a0, a1, a2, a3, a4, a5, a6, a7, a8, a9, a10, a11, a12, a13, a14,
              a15, a16, a17, rest, rfl⟩ := exists_heads18 h18
      have hr : rest.length ≠ 1 := by
        simp only [List.length_cons] at h19
        omega
      rw [update_state_dict_skip a0 a1 a2 a3 a4 a5 a6 a7 a8 a9 a10 a11 a12 a13
          a14 a15 a16 a17 rest hr f0? en? d] at hok
      injection hok with h
      subst h
      exact ⟨_, rfl, rfl, rfl⟩

/-- Witness for `c2_amended_skip_rule`: at the length-19 array
`[0, ..., 18]` normalization reads `emb_channels` from slot 17 and `sr`
from slot 18; at the length-18 array `cfg18A` it backfills 256. -/
theorem c2_amended_skip_rule_witness :
    (∃ sd', update_state_dict
        ⟨none, [0, 1, 2, 3, 4, 5, 6, 7, 8, 9, 10, 11, 12, 13, 14, 15, 16, 17,
                18], none, none, 4⟩ = Except.ok sd' ∧
      ∃ ps, sd'.params? = some ps ∧
        ps.lookup "emb_channels" =
          ([0, 1, 2, 3, 4, 5, 6, 7, 8, 9, 10, 11, 12, 13, 14, 15, 16, 17,
            18] : List Int).get? 17 ∧
        ps.lookup "sr" =
          ([0, 1, 2, 3, 4, 5, 6, 7, 8, 9, 10, 11, 12, 13, 14, 15, 16, 17,
            18] : List Int).get? 18) ∧
    (∀ sd', update_state_dict ⟨none, cfg18A, none, none, 4⟩ = Except.ok sd' →
      ∃ ps, sd'.params? = some ps ∧
        ps.lookup "emb_channels" = some 256 ∧
        ps.lookup "sr" = cfg18A.get? 17) :=
  ⟨(c2_amended_skip_rule
      [0, 1, 2, 3, 4, 5, 6, 7, 8, 9, 10, 11, 12, 13, 14, 15, 16, 17, 18]
      none none 4).1 (by decide),
   (c2_amended_skip_rule cfg18A none none 4).2 (by decide)⟩

/-- C7: when the configuration array runs out of elements for a
non-skipped canonical field (fewer than 18 entries), `load_model`
signals an error and the process-wide global state — in particular the
active session `vc_model` — is left unchanged. -/
theorem c7_short_config_load_fails (model_name : String) (config : List Int)
    (f0? : Option Int) (en? : Option String) (d : Nat) (st : Globals)
    (hl : config.length < 18) :
    (load_model model_name ⟨none, config, f0?, en?, d⟩ st).1 = st ∧
    ∃ e, (load_model model_name ⟨none, config, f0?, en?, d⟩ st).2 =
      Except.error e := by
  have herr : update_state_dict ⟨none, config, f0?, en?, d⟩ =
      Except.error "list index out of range" :=
    @update_state_dict_short ⟨none, config, f0?, en?, d⟩ rfl hl
  simp only [load_model, get_vc_model, VC_MODEL_init, herr]
  exact ⟨trivial, _, rfl⟩

/-- Witness for `c7_short_config_load_fails`: a 3-entry configuration
array fails to load and leaves the valid session in `gFull` untouched. -/
theorem c7_short_config_load_fails_witness :
    ([1, 2, 3] : List Int).length < 18 ∧
    (load_model "modelB.pth" ⟨none, [1, 2, 3], none, none, 4⟩ gFull).1 = gFull ∧
    ∃ e, (load_model "modelB.pth" ⟨none, [1, 2, 3], none, none, 4⟩ gFull).2 =
      Except.error e :=
  ⟨by decide,
   (c7_short_config_load_fails "modelB.pth" [1, 2, 3] none none 4 gFull
      (by decide)).1,
   (c7_short_config_load_fails "modelB.pth" [1, 2, 3] none none 4 gFull
      (by decide)).2⟩

/-- Looking up the assigned key in a `dictSet`-updated association
list finds the assigned value. -/
theorem lookup_dictSet_self (ps : List (String × Int)) (k : String) (v : Int) :
    (dictSet ps k v).lookup k = some v := by
  induction ps with
  | nil => simp [dictSet, List.lookup_cons]
  | cons p rest ih =>
    obtain ⟨k', v'⟩ := p
    by_cases h : k' = k
    · subst h
      simp [dictSet, List.lookup_cons]
    · simp [dictSet, h, List.lookup_cons, beq_false_of_ne (Ne.symm h), ih]

/-- A successful lookup is preserved by appending entries on the
right. -/
theorem lookup_append_some {ps : List (String × Int)}
    (qs : List (String × Int)) {k : String} {v : Int}
    (h : ps.lookup k = some v) : (ps ++ qs).lookup k = some v := by
  induction ps with
  | nil => simp [List.lookup] at h
  | cons p rest ih =>
    obtain ⟨k', v'⟩ := p
    rcases hk : (k == k') with _ | _
    · rw [List.cons_append]
      simp only [List.lookup_cons, hk] at h ⊢
      exact ih h
    · rw [List.cons_append]
      simp only [List.lookup_cons, hk] at h ⊢
      exact h

/-- A successful normalization only fills `params?`; the other
checkpoint fields are returned unchanged. -/
theorem update_state_dict_preserves {sd sd1 : StateDict}
    (h : update_state_dict sd = Except.ok sd1) :
    sd1.config = sd.config ∧ sd1.f0? = sd.f0? ∧
    sd1.embedder_name? = sd.embedder_name? ∧
    sd1.emb_g_dim0 = sd.emb_g_dim0 := by
  rw [update_state_dict] at h
  rcases hp : sd.params? with _ | ps
  · rw [hp] at h
    rcases hb : buildParams sd.config canonical_keys 0 0 with e | ps2
    · rw [hb] at h
      exact Except.noConfusion h
    · rw [hb] at h
      injection h with h
      subst h
      exact ⟨rfl, rfl, rfl, rfl⟩
  · rw [hp] at h
    injection h with h
    subst h
    exact ⟨rfl, rfl, rfl, rfl⟩

/-- The full success contract of `VC_MODEL.__init__`: the session
records the model name, the checkpoint's pitch flag and (defaulted)
embedder name, selects the network variant by the defaulted pitch
flag, and both the final `spk_embed_dim` parameter and the reported
speaker count equal the leading dimension of the `emb_g.weight`
tensor. -/
theorem VC_MODEL_init_ok_spec {model_name : String} {sd : StateDict}
    {s : Session} (h : VC_MODEL_init model_name sd = Except.ok s) :
    s.model_name = model_name ∧
    s.weight_f0? = sd.f0? ∧
    s.embedder_name = sd.embedder_name?.getD "hubert_base" ∧
    s.net_g = (if sd.f0?.getD 1 = 1 then NetVariant.synthesizerTrnMs256NSFSid
               else NetVariant.synthesizerTrnMs256NSFSidNono) ∧
    s.params.lookup "spk_embed_dim" = some (Int.ofNat sd.emb_g_dim0) ∧
    s.n_spk = Int.ofNat sd.emb_g_dim0 := by
  rw [VC_MODEL_init] at h
  rcases hu : update_state_dict sd with e | sd1
  · rw [hu] at h
    exact Except.noConfusion h
  obtain ⟨hcfg, hf0, hen, hdim⟩ := update_state_dict_preserves hu
  rw [hu] at h
  simp only at h
  rcases hp : sd1.params? with _ | ps0
  · rw [hp] at h
    exact Except.noConfusion h
  rw [hp] at h
  simp only at h
  rcases hsr : ps0.lookup "sr" with _ | sr
  · rw [hsr] at h
    exact Except.noConfusion h
  rw [hsr] at h
  simp only at h
  have hspk1 : (dictSet ps0 "spk_embed_dim"
      (Int.ofNat sd1.emb_g_dim0)).lookup "spk_embed_dim" =
      some (Int.ofNat sd1.emb_g_dim0) := lookup_dictSet_self _ _ _
  by_cases hemb : ((dictSet ps0 "spk_embed_dim"
      (Int.ofNat sd1.emb_g_dim0)).lookup "emb_channels").isSome
  · rw [if_pos hemb, hspk1] at h
    simp only at h
    injection h with h
    subst h
    exact ⟨rfl, hf0, by rw [hen], by rw [hf0], by rw [hdim] at hspk1 ⊢; exact hspk1,
           by rw [hdim]⟩
  · rw [if_neg hemb, lookup_append_some _ hspk1] at h
    simp only at h
    injection h with h
    subst h
    refine ⟨rfl, hf0, by rw [hen], by rw [hf0], ?_, by rw [hdim]⟩
    rw [← hdim]
    exact lookup_append_some _ hspk1

/-- C3: for every successfully loaded checkpoint, the runtime
configuration's `spk_embed_dim` and the session's reported speaker
count both equal the leading dimension of the checkpoint's actual
speaker-embedding weight tensor (`emb_g.weight`), for every stored
configuration array — in particular also when the array's stored
`spk_embed_dim` disagrees with the tensor shape. -/
theorem c3_spk_dim_from_tensor (model_name : String) (sd : StateDict)
    (s : Session) (h : VC_MODEL_init model_name sd = Except.ok s) :
    s.params.lookup "spk_embed_dim" = some (Int.ofNat sd.emb_g_dim0) ∧
    s.n_spk = Int.ofNat sd.emb_g_dim0 := by
  obtain ⟨-, -, -, -, h5, h6⟩ := VC_MODEL_init_ok_spec h
  exact ⟨h5, h6⟩

/-- Witness for `c3_spk_dim_from_tensor`: `sdA` stores 999 in the
`spk_embed_dim` slot of its configuration array but has an
`emb_g.weight` tensor of leading dimension 4; the session reports 4. -/
theorem c3_spk_dim_from_tensor_witness :
    VC_MODEL_init "modelA.pth" sdA = Except.ok sessA ∧
    cfg18A.get? 15 = some 999 ∧ sdA.emb_g_dim0 = 4 ∧
    sessA.params.lookup "spk_embed_dim" = some (Int.ofNat sdA.emb_g_dim0) ∧
    sessA.n_spk = Int.ofNat sdA.emb_g_dim0 :=
  ⟨by rfl, by decide, by decide,
   (c3_spk_dim_from_tensor "modelA.pth" sdA sessA (by rfl)).1,
   (c3_spk_dim_from_tensor "modelA.pth" sdA sessA (by rfl)).2⟩

/-- `single` on the success path when the embedder condition holds:
the embedder is (re)loaded and the pipeline arguments are computed. -/
theorem single_eq_load (sess : Session) (st : Globals) (fs : String → Bool)
    (models_dir : String) (out_dir_files : List String) (sid : Int)
    (input_audio : String) (f0_up_key : Int) (f0_file f0_method : String)
    (auto_load_index : Bool) (faiss_index_file big_npy_file : String)
    (index_rate : Rat) (emb_file emb_name : String)
    (hl : load_emb_dic.lookup sess.embedder_name = some (emb_file, emb_name))
    (hin : input_audio ≠ "")
    (hcond : st.embedder_model = none ∨ st.loaded_embedder_model ≠ emb_name) :
    single sess st fs models_dir out_dir_files sid input_audio f0_up_key
        f0_file f0_method auto_load_index faiss_index_file big_npy_file
        index_rate =
      (load_embedder emb_file emb_name st,
       Except.ok
         { embedderLoaded := true, pipe_sid := sid,
           pipe_f0_up_key := f0_up_key, pipe_f0_method := f0_method,
           pipe_faiss_index_file :=
             if faiss_index_file = "" ∧ auto_load_index then
               get_index_path fs models_dir sess.model_name sid
             else faiss_index_file,
           pipe_big_npy_file :=
             if big_npy_file = "" ∧ auto_load_index then
               get_big_npy_path fs models_dir sess.model_name sid
             else big_npy_file,
           pipe_index_rate := index_rate, pipe_f0 := sess.weight_f0?.getD 1,
           pipe_f0_file := f0_file, pipe_embedder_name := sess.embedder_name,
           outputFile := toString (maxLeadingNum out_dir_files + 1) ++ "-" ++
             splitextFst sess.model_name ++ "-" ++
             splitextFst (osBasename input_audio) ++ ".wav" }) := by
  simp only [single, hl, if_neg hin, if_pos hcond]

/-- `single` on the success path when the right embedder family is
already loaded: the global state is untouched and no load happens. -/
theorem single_eq_noload (sess : Session) (st : Globals) (fs : String → Bool)
    (models_dir : String) (out_dir_files : List String) (sid : Int)
    (input_audio : String) (f0_up_key : Int) (f0_file f0_method : String)
    (auto_load_index : Bool) (faiss_index_file big_npy_file : String)
    (index_rate : Rat) (emb_file emb_name : String)
    (hl : load_emb_dic.lookup sess.embedder_name = some (emb_file, emb_name))
    (hin : input_audio ≠ "")
    (hcond : ¬(st.embedder_model = none ∨ st.loaded_embedder_model ≠ emb_name)) :
    single sess st fs models_dir out_dir_files sid input_audio f0_up_key
        f0_file f0_method auto_load_index faiss_index_file big_npy_file
        index_rate =
      (st,
       Except.ok
         { embedderLoaded := false, pipe_sid := sid,
           pipe_f0_up_key := f0_up_key, pipe_f0_method := f0_method,
           pipe_faiss_index_file :=
             if faiss_index_file = "" ∧ auto_load_index then
               get_index_path fs models_dir sess.model_name sid
             else faiss_index_file,
           pipe_big_npy_file :=
             if big_npy_file = "" ∧ auto_load_index then
               get_big_npy_path fs models_dir sess.model_name sid
             else big_npy_file,
           pipe_index_rate := index_rate, pipe_f0 := sess.weight_f0?.getD 1,
           pipe_f0_file := f0_file, pipe_embedder_name := sess.embedder_name,
           outputFile := toString (maxLeadingNum out_dir_files + 1) ++ "-" ++
             splitextFst sess.model_name ++ "-" ++
             splitextFst (osBasename input_audio) ++ ".wav" }) := by
  simp only [single, hl, if_neg hin, if_neg hcond]

/-- Dissection of a successful `single` call: either the embedder
condition held, a load happened and the new state holds the requested
family, or it did not and the state is returned untouched. -/
theorem single_ok_dissect {sess : Session} {st : Globals} {fs : String → Bool}
    {models_dir : String} {out_dir_files : List String} {sid : Int}
    {input_audio : String} {f0_up_key : Int} {f0_file f0_method : String}
    {auto_load_index : Bool} {faiss_index_file big_npy_file : String}
    {index_rate : Rat} {st' : Globals} {out : SingleOut}
    {emb_file emb_name : String}
    (hl : load_emb_dic.lookup sess.embedder_name = some (emb_file, emb_name))
    (h : single sess st fs models_dir out_dir_files sid input_audio f0_up_key
        f0_file f0_method auto_load_index faiss_index_file big_npy_file
        index_rate = (st', Except.ok out)) :
    input_audio ≠ "" ∧
    ((st.embedder_model = none ∨ st.loaded_embedder_model ≠ emb_name) ∧
       st' = load_embedder emb_file emb_name st ∧ out.embedderLoaded = true ∨
     ¬(st.embedder_model = none ∨ st.loaded_embedder_model ≠ emb_name) ∧
       st' = st ∧ out.embedderLoaded = false) := by
  by_cases hin : input_audio = ""
  · rw [single, if_pos hin] at h
    injection h with h1 h2
    exact Except.noConfusion h2
  refine ⟨hin, ?_⟩
  by_cases hcond : st.embedder_model = none ∨ st.loaded_embedder_model ≠ emb_name
  · rw [single_eq_load sess st fs models_dir out_dir_files sid input_audio
        f0_up_key f0_file f0_method auto_load_index faiss_index_file
        big_npy_file index_rate emb_file emb_name hl hin hcond] at h
    injection h with h1 h2
    injection h2 with h3
    subst h3
    exact Or.inl ⟨hcond, h1.symm, rfl⟩
  · rw [single_eq_noload sess st fs models_dir out_dir_files sid input_audio
        f0_up_key f0_file f0_method auto_load_index faiss_index_file
        big_npy_file index_rate emb_file emb_name hl hin hcond] at h
    injection h with h1 h2
    injection h2 with h3
    subst h3
    exact Or.inr ⟨hcond, h1.symm, rfl⟩

/-- After any successful `single` call, an embedder is loaded and the
loaded family is the requested one. -/
theorem single_ok_post {sess : Session} {st : Globals} {fs : String → Bool}
    {models_dir : String} {out_dir_files : List String} {sid : Int}
    {input_audio : String} {f0_up_key : Int} {f0_file f0_method : String}
    {auto_load_index : Bool} {faiss_index_file big_npy_file : String}
    {index_rate : Rat} {st' : Globals} {out : SingleOut}
    {emb_file emb_name : String}
    (hl : load_emb_dic.lookup sess.embedder_name = some (emb_file, emb_name))
    (h : single sess st fs models_dir out_dir_files sid input_audio f0_up_key
        f0_file f0_method auto_load_index faiss_index_file big_npy_file
        index_rate = (st', Except.ok out)) :
    st'.embedder_model ≠ none ∧ st'.loaded_embedder_model = emb_name := by
  obtain ⟨-, hc⟩ := single_ok_dissect hl h
  rcases hc with ⟨-, rfl, -⟩ | ⟨hcond, rfl, -⟩
  · exact ⟨by simp [load_embedder], rfl⟩
  · push_neg at hcond
    exact ⟨hcond.1, by simpa using hcond.2⟩

/-- C4: a conversion performs the expensive embedder load exactly when
no embedder is loaded or the loaded family differs from the family of
the session's requested logical name; consequently a second successful
conversion whose requested name maps to the same family — the same
logical name or an alias such as hubert_base768 after hubert_base —
never loads again. -/
theorem c4_embedder_load_iff
    (sess : Session) (st : Globals) (fs : String → Bool) (models_dir : String)
    (out_dir_files : List String) (sid : Int) (input_audio : String)
    (f0_up_key : Int) (f0_file f0_method : String) (auto_load_index : Bool)
    (faiss_index_file big_npy_file : String) (index_rate : Rat)
    (emb_file emb_name : String)
    (hl : load_emb_dic.lookup sess.embedder_name = some (emb_file, emb_name)) :
    (∀ st' out,
      single sess st fs models_dir out_dir_files sid input_audio f0_up_key
          f0_file f0_method auto_load_index faiss_index_file big_npy_file
          index_rate = (st', Except.ok out) →
      (out.embedderLoaded = true ↔
        (st.embedder_model = none ∨ st.loaded_embedder_model ≠ emb_name))) ∧
    (∀ st' out sess2 emb_file2 fs2 models_dir2 files2 sid2 input2 f0k2 f0f2
       f0m2 ali2 fif2 bnf2 ir2 st'' out2,
      single sess st fs models_dir out_dir_files sid input_audio f0_up_key
          f0_file f0_method auto_load_index faiss_index_file big_npy_file
          index_rate = (st', Except.ok out) →
      load_emb_dic.lookup sess2.embedder_name = some (emb_file2, emb_name) →
      single sess2 st' fs2 models_dir2 files2 sid2 input2 f0k2 f0f2 f0m2
          ali2 fif2 bnf2 ir2 = (st'', Except.ok out2) →
      out2.embedderLoaded = false) := by
  constructor
  · intro st' out h
    obtain ⟨-, hc⟩ := single_ok_dissect hl h
    rcases hc with ⟨hcond, -, hload⟩ | ⟨hcond, -, hload⟩
    · simp [hload, hcond]
    · simp [hload, hcond]
  · intro st' out sess2 emb_file2 fs2 models_dir2 files2 sid2 input2 f0k2
      f0f2 f0m2 ali2 fif2 bnf2 ir2 st'' out2 h1 hl2 h2
    obtain ⟨hne, hld⟩ := single_ok_post hl h1
    obtain ⟨-, hc2⟩ := single_ok_dissect hl2 h2
    rcases hc2 with ⟨hcond2, -, -⟩ | ⟨-, -, hload2⟩
    · exfalso
      rcases hcond2 with hc | hc
      · exact hne hc
      · exact hc hld
    · exact hload2

/-- Witness for `c4_embedder_load_iff`: starting from the empty global
state, a conversion with `sessA` (hubert_base) loads the embedder, and
an immediately following conversion with `sessB` (hubert_base768, the
same family) does not. -/
theorem c4_embedder_load_iff_witness :
    ∃ st1 out1 st2 out2,
      single sessA gEmpty fsFalse "models" [] 0 "audio.wav" 0 "" "pm" false
          "" "" 0 = (st1, Except.ok out1) ∧
      single sessB st1 fsFalse "models" [] 0 "audio.wav" 0 "" "pm" false
          "" "" 0 = (st2, Except.ok out2) ∧
      out1.embedderLoaded = true ∧ out2.embedderLoaded = false := by
  refine ⟨_, _, _, _, rfl, rfl, ?_, ?_⟩
  · exact ((c4_embedder_load_iff sessA gEmpty fsFalse "models" [] 0
        "audio.wav" 0 "" "pm" false "" "" 0 "hubert_base.pt" "hubert_base"
        rfl).1 _ _ rfl).mpr (Or.inl rfl)
  · exact (c4_embedder_load_iff sessA gEmpty fsFalse "models" [] 0
        "audio.wav" 0 "" "pm" false "" "" 0 "hubert_base.pt" "hubert_base"
        rfl).2 _ _ sessB "hubert_base.pt" fsFalse "models" [] 0 "audio.wav"
        0 "" "pm" false "" "" 0 _ _ rfl rfl rfl

/-- A logical name outside the four supported ones is absent from
`load_emb_dic`. -/
theorem load_emb_dic_lookup_eq_none {n : String}
    (h : n ∉ (["hubert_base", "hubert_base768", "contentvec",
               "contentvec768"] : List String)) :
    load_emb_dic.lookup n = none := by
  simp only [List.mem_cons, List.not_mem_nil, or_false, not_or] at h
  obtain ⟨h1, h2, h3, h4⟩ := h
  simp [load_emb_dic, List.lookup_cons, List.lookup_nil,
        beq_false_of_ne h1, beq_false_of_ne h2, beq_false_of_ne h3,
        beq_false_of_ne h4]

/-- C8: a conversion with an empty source-audio path fails immediately
with the usage error, before the embedder check and with the global
state returned unchanged; a conversion whose session records an
embedder name outside the four supported logical names fails with the
unsupported-embedder error, also leaving the global state (session and
embedder fields alike) unchanged. -/
theorem c8_validation_errors (sess : Session) (st : Globals)
    (fs : String → Bool) (models_dir : String) (out_dir_files : List String)
    (sid : Int) (input_audio : String) (f0_up_key : Int)
    (f0_file f0_method : String) (auto_load_index : Bool)
    (faiss_index_file big_npy_file : String) (index_rate : Rat) :
    (input_audio = "" →
      single sess st fs models_dir out_dir_files sid input_audio f0_up_key
          f0_file f0_method auto_load_index faiss_index_file big_npy_file
          index_rate = (st, Except.error "You need to set Source Audio")) ∧
    (input_audio ≠ "" →
      sess.embedder_name ∉ (["hubert_base", "hubert_base768", "contentvec",
                             "contentvec768"] : List String) →
      single sess st fs models_dir out_dir_files sid input_audio f0_up_key
          f0_file f0_method auto_load_index faiss_index_file big_npy_file
          index_rate =
        (st, Except.error ("Not supported embedder: " ++ sess.embedder_name))) := by
  constructor
  · intro hin
    rw [single, if_pos hin]
  · intro hin hn
    rw [single, if_neg hin, load_emb_dic_lookup_eq_none hn]

/-- Witness for `c8_validation_errors`: an empty source path on an
intact state, and a session demanding the unsupported name "whisper". -/
theorem c8_validation_errors_witness :
    single sessA gFull fsFalse "models" [] 0 "" 0 "" "pm" false "" "" 0 =
      (gFull, Except.error "You need to set Source Audio") ∧
    single { sessA with embedder_name := "whisper" } gFull fsFalse "models"
        [] 0 "audio.wav" 0 "" "pm" false "" "" 0 =
      (gFull, Except.error "Not supported embedder: whisper") :=
  ⟨(c8_validation_errors sessA gFull fsFalse "models" [] 0 "" 0 "" "pm"
      false "" "" 0).1 rfl,
   (c8_validation_errors { sessA with embedder_name := "whisper" } gFull
      fsFalse "models" [] 0 "audio.wav" 0 "" "pm" false "" "" 0).2
     (by decide) (by decide)⟩

/-- The directory-scan fold never goes below its accumulator. -/
theorem foldlMax_init_le (files : List String) :
    ∀ acc : Nat,
      acc ≤ files.foldl
        (fun index f =>
          match leadingNumber f with
          | some prefix_num => if index < prefix_num then prefix_num else index
          | none => index) acc := by
  induction files with
  | nil => intro acc; simp
  | cons f rest ih =>
    intro acc
    rw [List.foldl_cons]
    refine le_trans ?_ (ih _)
    rcases hf : leadingNumber f with _ | p
    · simp
    · simp only
      split
      · omega
      · exact le_refl acc

/-- Every leading numeric prefix in the listing is bounded by the
directory-scan fold. -/
theorem foldlMax_mem_le (files : List String) :
    ∀ (acc : Nat) (f : String) (p : Nat), f ∈ files → leadingNumber f = some p →
      p ≤ files.foldl
        (fun index f =>
          match leadingNumber f with
          | some prefix_num => if index < prefix_num then prefix_num else index
          | none => index) acc := by
  induction files with
  | nil =>
    intro acc f p hmem
    exact absurd hmem (List.not_mem_nil f)
  | cons g rest ih =>
    intro acc f p hmem hp
    rw [List.foldl_cons]
    rcases List.mem_cons.mp hmem with rfl | hmem2
    · refine le_trans ?_ (foldlMax_init_le rest _)
      rw [hp]
      simp only
      split
      · exact le_refl p
      · omega
    · exact ih _ f p hmem2 hp

/-- The directory-scan fold either returns its accumulator or a value
attained as some file's leading numeric prefix. -/
theorem foldlMax_attained (files : List String) :
    ∀ acc : Nat,
      files.foldl
        (fun index f =>
          match leadingNumber f with
          | some prefix_num => if index < prefix_num then prefix_num else index
          | none => index) acc = acc ∨
      ∃ f ∈ files,
        leadingNumber f =
          some (files.foldl
            (fun index f =>
              match leadingNumber f with
              | some prefix_num =>
                if index < prefix_num then prefix_num else index
              | none => index) acc) := by
  induction files with
  | nil => intro acc; exact Or.inl rfl
  | cons g rest ih =>
    intro acc
    rw [List.foldl_cons]
    rcases ih (match leadingNumber g with
      | some prefix_num => if acc < prefix_num then prefix_num else acc
      | none => acc) with heq | ⟨f, hf, hlf⟩
    · rw [heq]
      rcases hg : leadingNumber g with _ | p
      · exact Or.inl rfl
      · simp only
        split
        · exact Or.inr ⟨g, List.mem_cons_self g rest, hg⟩
        · exact Or.inl rfl
    · exact Or.inr ⟨f, List.mem_cons_of_mem g hf, hlf⟩

/-- Fields of a successful `single` result that do not depend on the
embedder condition: the numbered output file name, the pipeline pitch
flag, and the embedder name handed to the pipeline. -/
theorem single_ok_fields {sess : Session} {st : Globals} {fs : String → Bool}
    {models_dir : String} {out_dir_files : List String} {sid : Int}
    {input_audio : String} {f0_up_key : Int} {f0_file f0_method : String}
    {auto_load_index : Bool} {faiss_index_file big_npy_file : String}
    {index_rate : Rat} {st' : Globals} {out : SingleOut}
    (h : single sess st fs models_dir out_dir_files sid input_audio f0_up_key
        f0_file f0_method auto_load_index faiss_index_file big_npy_file
        index_rate = (st', Except.ok out)) :
    out.outputFile = toString (maxLeadingNum out_dir_files + 1) ++ "-" ++
      splitextFst sess.model_name ++ "-" ++
      splitextFst (osBasename input_audio) ++ ".wav" ∧
    out.pipe_f0 = sess.weight_f0?.getD 1 ∧
    out.pipe_embedder_name = sess.embedder_name ∧
    out.pipe_faiss_index_file =
      (if faiss_index_file = "" ∧ auto_load_index then
        get_index_path fs models_dir sess.model_name sid
      else faiss_index_file) ∧
    out.pipe_big_npy_file =
      (if big_npy_file = "" ∧ auto_load_index then
        get_big_npy_path fs models_dir sess.model_name sid
      else big_npy_file) := by
  by_cases hin : input_audio = ""
  · rw [single, if_pos hin] at h
    injection h with h1 h2
    exact Except.noConfusion h2
  rcases hl : load_emb_dic.lookup sess.embedder_name with _ | fe
  · simp only [single, if_neg hin, hl] at h
    injection h with h1 h2
    exact Except.noConfusion h2
  obtain ⟨emb_file, emb_name⟩ := fe
  by_cases hcond : st.embedder_model = none ∨ st.loaded_embedder_model ≠ emb_name
  · rw [single_eq_load sess st fs models_dir out_dir_files sid input_audio
        f0_up_key f0_file f0_method auto_load_index faiss_index_file
        big_npy_file index_rate emb_file emb_name hl hin hcond] at h
    injection h with h1 h2
    injection h2 with h3
    subst h3
    exact ⟨rfl, rfl, rfl, rfl, rfl⟩
  · rw [single_eq_noload sess st fs models_dir out_dir_files sid input_audio
        f0_up_key f0_file f0_method auto_load_index faiss_index_file
        big_npy_file index_rate emb_file emb_name hl hin hcond] at h
    injection h with h1 h2
    injection h2 with h3
    subst h3
    exact ⟨rfl, rfl, rfl, rfl, rfl⟩

/-- C6: every successful conversion writes its output as
`<n+1>-<model-basename>-<source-basename>.wav` where `n` is the scan
result over the existing listing: an upper bound of all leading
numeric prefixes that is either 0 (so an empty or prefix-free
directory yields prefix 1) or itself attained as some file's leading
numeric prefix. -/
theorem c6_output_numbering (sess : Session) (st : Globals)
    (fs : String → Bool) (models_dir : String) (out_dir_files : List String)
    (sid : Int) (input_audio : String) (f0_up_key : Int)
    (f0_file f0_method : String) (auto_load_index : Bool)
    (faiss_index_file big_npy_file : String) (index_rate : Rat)
    (st' : Globals) (out : SingleOut)
    (h : single sess st fs models_dir out_dir_files sid input_audio f0_up_key
        f0_file f0_method auto_load_index faiss_index_file big_npy_file
        index_rate = (st', Except.ok out)) :
    out.outputFile = toString (maxLeadingNum out_dir_files + 1) ++ "-" ++
      splitextFst sess.model_name ++ "-" ++
      splitextFst (osBasename input_audio) ++ ".wav" ∧
    (∀ f ∈ out_dir_files, ∀ p, leadingNumber f = some p →
      p ≤ maxLeadingNum out_dir_files) ∧
    (maxLeadingNum out_dir_files = 0 ∨
      ∃ f ∈ out_dir_files,
        leadingNumber f = some (maxLeadingNum out_dir_files)) := by
  refine ⟨(single_ok_fields h).1, ?_, ?_⟩
  · intro f hf p hp
    exact foldlMax_mem_le out_dir_files 0 f p hf hp
  · exact foldlMax_attained out_dir_files 0

/-- Witness for `c6_output_numbering`: with existing files
`3-foo-bar.wav` and `7-baz-qux.wav` the next output is
`8-modelA-audio.wav`; with an empty directory it is
`1-modelA-audio.wav`. -/
theorem c6_output_numbering_witness :
    ∃ st1 out1 st2 out2,
      single sessA gEmpty fsFalse "models" filesW 0 "dir/audio.wav" 0 "" "pm"
          false "" "" 0 = (st1, Except.ok out1) ∧
      out1.outputFile = "8-modelA-audio.wav" ∧
      single sessA gEmpty fsFalse "models" [] 0 "dir/audio.wav" 0 "" "pm"
          false "" "" 0 = (st2, Except.ok out2) ∧
      out2.outputFile = "1-modelA-audio.wav" := by
  refine ⟨_, _, _, _, rfl, ?_, rfl, ?_⟩
  · exact (c6_output_numbering sessA gEmpty fsFalse "models" filesW 0
      "dir/audio.wav" 0 "" "pm" false "" "" 0 _ _ rfl).1.trans rfl
  · exact (c6_output_numbering sessA gEmpty fsFalse "models" [] 0
      "dir/audio.wav" 0 "" "pm" false "" "" 0 _ _ rfl).1.trans rfl

/-- C5: index resolution returns the per-speaker path exactly when
that file exists, and otherwise returns the model-level fallback
unconditionally — the oracle is never consulted on the fallback; the
same rule holds for the dense-vector path.  The path shapes follow the
`checkpoints/<basename>_index/<basename>.<sid>.<ext>` and
`checkpoints/<basename>.<ext>` conventions, as the concrete instances
show. -/
theorem c5_artifact_resolution (fs : String → Bool)
    (models_dir model_name : String) (sid : Int) :
    (fs (speaker_index_path models_dir model_name sid) = true →
      get_index_path fs models_dir model_name sid =
        speaker_index_path models_dir model_name sid) ∧
    (fs (speaker_index_path models_dir model_name sid) = false →
      get_index_path fs models_dir model_name sid =
        fallback_index_path models_dir model_name) ∧
    (fs (speaker_big_npy_path models_dir model_name sid) = true →
      get_big_npy_path fs models_dir model_name sid =
        speaker_big_npy_path models_dir model_name sid) ∧
    (fs (speaker_big_npy_path models_dir model_name sid) = false →
      get_big_npy_path fs models_dir model_name sid =
        fallback_big_npy_path models_dir model_name) ∧
    speaker_index_path "models" "modelA.pth" 3 =
      "models/checkpoints/modelA_index/modelA.3.index" ∧
    fallback_index_path "models" "modelA.pth" =
      "models/checkpoints/modelA.index" ∧
    speaker_big_npy_path "models" "modelA.pth" 3 =
      "models/checkpoints/modelA_index/modelA.3.big.npy" ∧
    fallback_big_npy_path "models" "modelA.pth" =
      "models/checkpoints/modelA.big.npy" := by
  refine ⟨?_, ?_, ?_, ?_, by decide, by decide, by decide, by decide⟩
  · intro hfs
    rw [get_index_path, if_pos hfs]
  · intro hfs
    rw [get_index_path, if_neg (by simp [hfs])]
  · intro hfs
    rw [get_big_npy_path, if_pos hfs]
  · intro hfs
    rw [get_big_npy_path, if_neg (by simp [hfs])]

/-- Witness for `c5_artifact_resolution`: with only
`models/checkpoints/modelA.index` on disk (no per-speaker directory),
resolving for speaker 3 yields the fallback path. -/
theorem c5_artifact_resolution_witness :
    get_index_path (fun p => p == "models/checkpoints/modelA.index")
        "models" "modelA.pth" 3 = "models/checkpoints/modelA.index" :=
  ((c5_artifact_resolution
      (fun p => p == "models/checkpoints/modelA.index")
      "models" "modelA.pth" 3).2.1 (by decide)).trans (by decide)

/-- C9: a checkpoint record without an `embedder_name` entry yields a
session whose required embedder is "hubert_base", and a subsequent
conversion from a state with no loaded embedder loads the physical
file hubert_base.pt under family name hubert_base and hands
"hubert_base" to the pipeline. -/
theorem c9_default_embedder (model_name : String) (sd : StateDict)
    (s : Session) (hemb : sd.embedder_name? = none)
    (h : VC_MODEL_init model_name sd = Except.ok s) :
    s.embedder_name = "hubert_base" ∧
    (∀ (st : Globals) (fs : String → Bool) (models_dir : String)
       (files : List String) (sid : Int) (input : String) (f0k : Int)
       (f0f f0m : String) (ali : Bool) (fif bnf : String) (ir : Rat),
      st.embedder_model = none → input ≠ "" →
      ∃ out, single s st fs models_dir files sid input f0k f0f f0m ali fif
          bnf ir =
        (load_embedder "hubert_base.pt" "hubert_base" st, Except.ok out) ∧
        out.embedderLoaded = true ∧
        out.pipe_embedder_name = "hubert_base") := by
  have hname : s.embedder_name = "hubert_base" := by
    have h3 := (VC_MODEL_init_ok_spec h).2.2.1
    rw [hemb] at h3
    exact h3
  refine ⟨hname, ?_⟩
  intro st fs models_dir files sid input f0k f0f f0m ali fif bnf ir hemp hin
  have hl : load_emb_dic.lookup s.embedder_name =
      some ("hubert_base.pt", "hubert_base") := by
    rw [hname]
    rfl
  rw [single_eq_load s st fs models_dir files sid input f0k f0f f0m ali fif
      bnf ir "hubert_base.pt" "hubert_base" hl hin (Or.inl hemp)]
  exact ⟨_, rfl, rfl, hname⟩

/-- Witness for `c9_default_embedder`: `sdA` carries no embedder
metadata; the session requires hubert_base and the first conversion
loads it. -/
theorem c9_default_embedder_witness :
    sessA.embedder_name = "hubert_base" ∧
    ∃ out, single sessA gEmpty fsFalse "models" [] 0 "audio.wav" 0 "" "pm"
        false "" "" 0 =
      (load_embedder "hubert_base.pt" "hubert_base" gEmpty, Except.ok out) ∧
      out.embedderLoaded = true ∧ out.pipe_embedder_name = "hubert_base" :=
  ⟨(c9_default_embedder "modelA.pth" sdA sessA rfl (by rfl)).1,
   (c9_default_embedder "modelA.pth" sdA sessA rfl (by rfl)).2 gEmpty fsFalse
     "models" [] 0 "audio.wav" 0 "" "pm" false "" "" 0 rfl (by decide)⟩

/-- C10: a checkpoint record without the `f0` pitch flag defaults it
to 1: the session selects the pitch-aware synthesizer variant and
every successful conversion passes pitch flag 1 to the pipeline. -/
theorem c10_default_pitch_flag (model_name : String) (sd : StateDict)
    (s : Session) (hf : sd.f0? = none)
    (h : VC_MODEL_init model_name sd = Except.ok s) :
    s.net_g = NetVariant.synthesizerTrnMs256NSFSid ∧
    (∀ (st : Globals) (fs : String → Bool) (models_dir : String)
       (files : List String) (sid : Int) (input : String) (f0k : Int)
       (f0f f0m : String) (ali : Bool) (fif bnf : String) (ir : Rat)
       (st' : Globals) (out : SingleOut),
      single s st fs models_dir files sid input f0k f0f f0m ali fif bnf ir =
        (st', Except.ok out) → out.pipe_f0 = 1) := by
  obtain ⟨-, h2, -, h4, -, -⟩ := VC_MODEL_init_ok_spec h
  constructor
  · rw [h4, hf]
    rfl
  · intro st fs models_dir files sid input f0k f0f f0m ali fif bnf ir st'
      out hs
    have h5 := (single_ok_fields hs).2.1
    rw [h5, h2, hf]
    rfl

/-- Witness for `c10_default_pitch_flag`: `sdA` has no `f0` entry; the
session is pitch-aware and a conversion passes pitch flag 1. -/
theorem c10_default_pitch_flag_witness :
    sessA.net_g = NetVariant.synthesizerTrnMs256NSFSid ∧
    ∃ st' out,
      single sessA gEmpty fsFalse "models" [] 0 "audio.wav" 0 "" "pm" false
          "" "" 0 = (st', Except.ok out) ∧ out.pipe_f0 = 1 := by
  refine ⟨(c10_default_pitch_flag "modelA.pth" sdA sessA rfl (by rfl)).1,
          _, _, rfl, ?_⟩
  exact (c10_default_pitch_flag "modelA.pth" sdA sessA rfl (by rfl)).2
    gEmpty fsFalse "models" [] 0 "audio.wav" 0 "" "pm" false "" "" 0 _ _ rfl
